import Mathlib

/-!
# BudgetMate backend — verification of the aggregate-consistency and rollup engine

Shallow embedding of the BudgetMate backend (Node/Express/Mongoose) in Lean 4.

Modelling conventions, fixed once for the whole file:
* JavaScript numbers are modelled as exact rationals (`ℚ`); IEEE-754 rounding is
  out of scope, but the special values produced by division (`NaN`, `±Infinity`)
  are modelled explicitly by the `JsNum` type at the division sites that can
  produce them.
* MongoDB documents are Lean structures; a collection is a `List`; document ids
  are `Nat` and are unique per collection (Mongo `_id` semantics).
  `Model.findOne(filter)` is `List.find?`, `Model.findByIdAndUpdate(id, {$inc})`
  maps the matching document without running `pre('save')` hooks — exactly the
  Mongoose behaviour of the source.  `===`/`!==` on ids is value (in)equality.
* Fields that no verified claim observes (name, icon, color, receipt,
  description, timestamps) are omitted from the structures.
* An expense `date` is kept as its calendar year and 1-based month
  (`getFullYear()` / `getMonth() + 1`), the only projections the routes use;
  hence `month` is always in `1..12` for a value produced by a real `Date`.
-/

/-- A JavaScript number at a site where division may leave the finite range:
a finite rational, `NaN`, or a signed infinity. -/
inductive JsNum
  | num (q : ℚ)
  | nan
  | inf
  | ninf
deriving DecidableEq

/-- JavaScript division `a / b` of two finite numbers: finite quotient when
`b ≠ 0`, and `NaN` / `±Infinity` when `b = 0` (IEEE-754 semantics). -/
def jsRatio (a b : ℚ) : JsNum :=
  if b = 0 then
    if a = 0 then JsNum.nan
    else if a > 0 then JsNum.inf
    else JsNum.ninf
  else JsNum.num (a / b)

/-- Multiplication of a possibly non-finite number by a positive finite
constant (the `* 100` step of the percentage computations). -/
def jsMulPos (x : JsNum) (c : ℚ) : JsNum :=
  match x with
  | JsNum.num q => JsNum.num (q * c)
  | JsNum.nan => JsNum.nan
  | JsNum.inf => JsNum.inf
  | JsNum.ninf => JsNum.ninf

/-- JavaScript `x >= c` for a possibly non-finite `x` and finite `c`:
`NaN` compares false, `Infinity` compares true. -/
def jsGe (x : JsNum) (c : ℚ) : Bool :=
  match x with
  | JsNum.num q => q ≥ c
  | JsNum.nan => false
  | JsNum.inf => true
  | JsNum.ninf => false

/-- JavaScript `x > c` for a possibly non-finite `x` and finite `c`. -/
def jsGt (x : JsNum) (c : ℚ) : Bool :=
  match x with
  | JsNum.num q => q > c
  | JsNum.nan => false
  | JsNum.inf => true
  | JsNum.ninf => false

/-- JavaScript `Math.round` on a finite value: round half up. -/
def jsRound (q : ℚ) : ℤ := ⌊q + 1 / 2⌋

/-- `Backend/models/Budget.js` — the fields the verified routes read or write. -/
structure Budget where
  id : Nat
  amount : ℚ
  spent : ℚ
  remaining : ℚ
  category : String
  user : Nat
  isActive : Bool
deriving DecidableEq

/-- `Budget.create` (`routes/budget.js` POST): `spent` defaults to `0` and the
`pre('save')` hook stores `remaining = amount - spent`. -/
def budgetCreate (id : Nat) (amount : ℚ) (category : String) (user : Nat) : Budget :=
  { id := id, amount := amount, spent := 0, remaining := amount - 0
    category := category, user := user, isActive := true }

/-- `spendingPercentage` virtual of `Backend/models/Budget.js`:
`amount === 0` returns `0`, otherwise `Math.round(spent / amount * 100)`. -/
def spendingPercentage (b : Budget) : ℤ :=
  if b.amount = 0 then 0 else jsRound (b.spent / b.amount * 100)

/-- `Backend/models/Expense.js` — the fields the verified routes read or write. -/
structure Expense where
  id : Nat
  amount : ℚ
  category : String
  year : Nat
  month : Nat
  budget : Option Nat
  user : Nat
  isActive : Bool
deriving DecidableEq

/-- The store visible to the expense routes: the `budgets` and `expenses`
collections plus the id Mongo will assign to the next inserted expense. -/
structure Store where
  budgets : List Budget
  expenses : List Expense
  nextId : Nat
deriving DecidableEq

/-- `Budget.findOne({_id, user, isActive: true})` — the ownership/liveness
check run by the expense routes before touching a referenced budget. -/
def findBudget (s : Store) (user bid : Nat) : Option Budget :=
  s.budgets.find? (fun b => b.id == bid && b.user == user && b.isActive)

/-- `Budget.findById` style lookup (no user or activity filter). -/
def findBudgetById (s : Store) (bid : Nat) : Option Budget :=
  s.budgets.find? (fun b => b.id == bid)

/-- `Budget.findByIdAndUpdate(bid, { $inc: { spent: delta } })`: an atomic
add on `spent` of the matching document.  No `pre('save')` hook runs, so
`remaining` is left untouched.  A missing id is a no-op. -/
def budgetIncSpent (s : Store) (bid : Nat) (delta : ℚ) : Store :=
  { s with budgets :=
      s.budgets.map (fun b => if b.id == bid then { b with spent := b.spent + delta } else b) }

/-- Request body of `POST /api/expenses` (after express-validator). -/
structure ExpenseInput where
  amount : ℚ
  category : String
  year : Nat
  month : Nat
  budget : Option Nat
deriving DecidableEq

/-- `Expense.create` for a given fresh id. -/
def mkExpense (id user : Nat) (i : ExpenseInput) : Expense :=
  { id := id, amount := i.amount, category := i.category, year := i.year
    month := i.month, budget := i.budget, user := user, isActive := true }

/-- Append a freshly created expense document to the store. -/
def addExpense (s : Store) (user : Nat) (i : ExpenseInput) : Store :=
  { s with expenses := s.expenses ++ [mkExpense s.nextId user i], nextId := s.nextId + 1 }

/-- `POST /api/expenses` (expense routes): when a budget ref is supplied it is
checked with `findOne({_id, user, isActive})` and an invalid ref returns `400`
before anything is written; otherwise the expense is created and, when linked,
the budget's `spent` is `$inc`-ed by the amount.  Returns (HTTP status, store). -/
def createExpense (s : Store) (user : Nat) (i : ExpenseInput) : Nat × Store :=
  match i.budget with
  | some b =>
    if (findBudget s user b).isSome then
      (201, budgetIncSpent (addExpense s user i) b i.amount)
    else (400, s)
  | none => (201, addExpense s user i)

/-- `Expense.findOne({_id, user, isActive: true})`. -/
def findActiveExpense (s : Store) (user eid : Nat) : Option Expense :=
  s.expenses.find? (fun e => e.id == eid && e.user == user && e.isActive)

/-- Request body of `PUT /api/expenses/:id`: the two fields the budget
adjustment logic inspects; `none` means the field is absent from the body. -/
structure ExpenseUpdate where
  amount : Option ℚ
  budget : Option Nat
deriving DecidableEq

/-- `Expense.findByIdAndUpdate(eid, req.body)`: overwrite the fields present
in the body on the matching document. -/
def updateExpenseDoc (s : Store) (eid : Nat) (u : ExpenseUpdate) : Store :=
  { s with expenses := s.expenses.map (fun e =>
      if e.id == eid then
        { e with amount := u.amount.getD e.amount
                 budget := match u.budget with | some b => some b | none => e.budget }
      else e) }

/-- `PUT /api/expenses/:id`: 404 when no active owned expense matches; budget
`spent` is adjusted only inside `if (req.body.amount !== undefined &&
req.body.amount !== expense.amount)` — the old budget is `$inc`-ed by the
amount difference and, when a different budget ref is supplied, the new budget
is `$inc`-ed by the full new amount; then the document is overwritten.
When the amount is absent or unchanged no budget is touched at all. -/
def updateExpense (s : Store) (user eid : Nat) (u : ExpenseUpdate) : Nat × Store :=
  match findActiveExpense s user eid with
  | none => (404, s)
  | some e =>
    let s1 :=
      match u.amount with
      | some a =>
        if a ≠ e.amount then
          let diff := a - e.amount
          let sOld := match e.budget with
            | some ob => budgetIncSpent s ob diff
            | none => s
          match u.budget with
          | some nb => if some nb ≠ e.budget then budgetIncSpent sOld nb a else sOld
          | none => sOld
        else s
      | none => s
    (200, updateExpenseDoc s1 e.id u)

/-- Soft delete: set `isActive := false` on the matching expense document. -/
def deactivateExpense (s : Store) (eid : Nat) : Store :=
  { s with expenses := s.expenses.map (fun e =>
      if e.id == eid then { e with isActive := false } else e) }

/-- `DELETE /api/expenses/:id`: 404 when no active owned expense matches;
otherwise the linked budget (if any) is `$inc`-ed by `-amount` and the
expense is soft-deleted. -/
def deleteExpense (s : Store) (user eid : Nat) : Nat × Store :=
  match findActiveExpense s user eid with
  | none => (404, s)
  | some e =>
    let s1 := match e.budget with
      | some b => budgetIncSpent s b (-e.amount)
      | none => s
    (200, deactivateExpense s1 e.id)

/-- `spent` of the budget with the given id, when present. -/
def spentOf (s : Store) (bid : Nat) : Option ℚ :=
  (findBudgetById s bid).map (fun b => b.spent)

/-- `remaining` of the budget with the given id, when present. -/
def remainingOf (s : Store) (bid : Nat) : Option ℚ :=
  (findBudgetById s bid).map (fun b => b.remaining)

/-- Sum of `amount` over the active expenses referencing the given budget —
the quantity the spec's Conservation property compares `spent` against. -/
def activeSum (s : Store) (bid : Nat) : ℚ :=
  ((s.expenses.filter (fun e => e.isActive && e.budget == some bid)).map
    (fun e => e.amount)).sum

/-! ## Bulk expense creation (`POST /api/expenses/bulk`) -/

/-- The per-item budget check of the bulk loop: an item passes when it has no
budget ref or its ref resolves through `findOne({_id, user, isActive})`. -/
def itemOk (s : Store) (user : Nat) (i : ExpenseInput) : Bool :=
  match i.budget with
  | some b => (findBudget s user b).isSome
  | none => true

/-- `budgetUpdates[budget] += amount` on the deferred-updates object
(insertion-ordered keys, as `Object.entries` iterates them). -/
def buAdd (bu : List (Nat × ℚ)) (b : Nat) (amt : ℚ) : List (Nat × ℚ) :=
  if bu.any (fun p => p.1 == b) then
    bu.map (fun p => if p.1 == b then (p.1, p.2 + amt) else p)
  else bu ++ [(b, amt)]

/-- The `for (const expenseData of expenses)` loop of the bulk route: each item
is budget-checked, recorded in the deferred `budgetUpdates` map, and created;
an invalid budget ref returns immediately (`Except.error`) with the store as it
stands — previously created expenses stay committed, budgets untouched. -/
def bulkLoop (user : Nat) : Store → List (Nat × ℚ) → List ExpenseInput →
    Except Store (Store × List (Nat × ℚ))
  | s, bu, [] => Except.ok (s, bu)
  | s, bu, i :: rest =>
    match i.budget with
    | some b =>
      if (findBudget s user b).isSome then
        bulkLoop user (addExpense s user i) (buAdd bu b i.amount) rest
      else Except.error s
    | none => bulkLoop user (addExpense s user i) bu rest

/-- The post-loop `for (const [budgetId, totalSpent] of Object.entries(...))`
applying the deferred `$inc`s. -/
def applyBudgetUpdates (s : Store) (bu : List (Nat × ℚ)) : Store :=
  bu.foldl (fun st p => budgetIncSpent st p.1 p.2) s

/-- `POST /api/expenses/bulk`: run the loop; on failure answer `400` with the
partially written store, on success apply the deferred budget updates. -/
def bulkCreateExpenses (user : Nat) (s : Store) (es : List ExpenseInput) : Nat × Store :=
  match bulkLoop user s [] es with
  | Except.error sErr => (400, sErr)
  | Except.ok (sOk, bu) => (201, applyBudgetUpdates sOk bu)

/-- Folding `Expense.create` over a list of inputs (the effect of the bulk
loop's successful prefix on the expense collection). -/
def addExpenses (s : Store) (user : Nat) (es : List ExpenseInput) : Store :=
  es.foldl (fun st i => addExpense st user i) s

/-! ## Monthly breakdowns (`GET /api/expenses/summary/overview`,
`GET /api/analytics/summary`) -/

/-- One bucket of the expense-summary monthly breakdown. -/
structure MonthBucket where
  totalSpent : ℚ
  count : Nat
deriving DecidableEq

/-- The `for (let month = 1; month <= 12; month++)` zero-initialisation. -/
def initMonthlyBreakdown : List (Nat × MonthBucket) :=
  (List.range 12).map (fun i => (i + 1, ⟨0, 0⟩))

/-- `monthlyBreakdown[month].totalSpent += amount; ...count += 1` – an update
of the existing key (`month` is `getMonth() + 1 ∈ 1..12`, always present). -/
def bumpMonth (l : List (Nat × MonthBucket)) (m : Nat) (amt : ℚ) : List (Nat × MonthBucket) :=
  l.map (fun p => if p.1 == m then (p.1, ⟨p.2.totalSpent + amt, p.2.count + 1⟩) else p)

/-- The expense-summary monthly breakdown: dense 1..12 initialisation, then a
pass over the expenses adding those of the current year into their month. -/
def monthlyBreakdown (currentYear : Nat) (es : List Expense) : List (Nat × MonthBucket) :=
  es.foldl (fun acc e => if e.year == currentYear then bumpMonth acc e.month e.amount else acc)
    initMonthlyBreakdown

/-- `Backend/models/ExpenseAnalytics.js` — one analytics row (fields the
verified routes read; `month ∈ 1..12` by schema validation). -/
structure ARow where
  category : String
  actual : ℚ
  budget : ℚ
  lastYear : ℚ
  month : Nat
  year : Nat
deriving DecidableEq

/-- The `variance` virtual: `budget - actual`. -/
def varianceOf (r : ARow) : ℚ := r.budget - r.actual

/-- The `variancePercentage` virtual: `0` when `budget === 0`, otherwise
`Math.round(variance / budget * 100)`. -/
def variancePercentage (r : ARow) : ℤ :=
  if r.budget = 0 then 0 else jsRound (varianceOf r / r.budget * 100)

/-- The guarded ternary of `GET /api/analytics/summary`:
`budget > 0 ? Math.round(variance / budget * 100) : 0`. -/
def summaryVariancePercentage (budget variance : ℚ) : ℤ :=
  if budget > 0 then jsRound (variance / budget * 100) else 0

/-- One bucket of the analytics-summary monthly breakdown. -/
structure ABucket where
  budget : ℚ
  actual : ℚ
  variance : ℚ
  lastYear : ℚ
deriving DecidableEq

/-- The analytics-summary `for (let month = 1; month <= 12; month++)`
zero-initialisation. -/
def initAnalyticsMonthly : List (Nat × ABucket) :=
  (List.range 12).map (fun i => (i + 1, ⟨0, 0, 0, 0⟩))

/-- Adding one analytics row into its month bucket. -/
def bumpAnalyticsMonth (l : List (Nat × ABucket)) (r : ARow) : List (Nat × ABucket) :=
  l.map (fun p =>
    if p.1 == r.month then
      (p.1, { p.2 with budget := p.2.budget + r.budget, actual := p.2.actual + r.actual
                       lastYear := p.2.lastYear + r.lastYear })
    else p)

/-- The analytics-summary monthly breakdown over the rows of the queried year:
dense 1..12 initialisation, accumulation, then the per-month
`variance = budget - actual` pass. -/
def analyticsMonthlyBreakdown (rows : List ARow) : List (Nat × ABucket) :=
  (rows.foldl bumpAnalyticsMonth initAnalyticsMonthly).map
    (fun p => (p.1, { p.2 with variance := p.2.budget - p.2.actual }))

/-! ## Savings plan (`Backend/models/SavingsPlan.js`,
`/api/savings/expenses` routes) -/

/-- `SavingsExpense` document (the expense sub-model of `SavingsPlan.js`). -/
structure SavingsExpense where
  id : Nat
  perMonth : ℚ
  perYear : ℚ
  user : Nat
deriving DecidableEq

/-- `SavingsExpense.create`: the `pre('save')` hook stores
`perYear = perMonth * 12`. -/
def savingsExpenseCreate (id user : Nat) (perMonth : ℚ) : SavingsExpense :=
  { id := id, perMonth := perMonth, perYear := perMonth * 12, user := user }

/-- `PUT /api/savings/expenses/:id` on the matched document:
`findOneAndUpdate` overwrites the fields present in the body and does **not**
run the `pre('save')` hook, so `perYear` keeps its stored value. -/
def savingsExpenseUpdate (e : SavingsExpense) (perMonth? : Option ℚ) : SavingsExpense :=
  { e with perMonth := perMonth?.getD e.perMonth }

/-! ## Dashboard notifications (`GET /api/dashboard/notifications`) and
analytics insights (`GET /api/analytics/insights`)

A notification / insight is reduced to its severity string and the category
it names; messages carry no further observable structure. -/

/-- Severity strings used by the two routes. -/
inductive Sev
  | warning
  | info
  | alert
deriving DecidableEq

/-- The `priority = { warning: 2, info: 1 }` map of the notification sort.
The map of the source has no `alert` entry (no alert ever reaches that sort);
the extension by `0` is unobservable there. -/
def priority : Sev → Nat
  | Sev.warning => 2
  | Sev.info => 1
  | Sev.alert => 0

/-- A notification or insight: its severity and the category it names. -/
structure Notif where
  type : Sev
  category : String
deriving DecidableEq

/-- The unguarded per-budget `(budget.spent / budget.amount) * 100` of the
notifications route. -/
def dashUtilization (spent amount : ℚ) : JsNum :=
  jsMulPos (jsRatio spent amount) 100

/-- Per-budget notification: `utilization >= 90` → warning,
else `utilization >= 80` → info, else nothing. -/
def budgetNotif (b : Budget) : List Notif :=
  let u := dashUtilization b.spent b.amount
  if jsGe u 90 then [⟨Sev.warning, b.category⟩]
  else if jsGe u 80 then [⟨Sev.info, b.category⟩]
  else []

/-- `categoryExpenses[category].push(amount)` grouping of the current month's
expenses (insertion-ordered keys). -/
def pushAmount (l : List (String × List ℚ)) (c : String) (a : ℚ) : List (String × List ℚ) :=
  if l.any (fun p => p.1 == c) then
    l.map (fun p => if p.1 == c then (p.1, p.2 ++ [a]) else p)
  else l ++ [(c, [a])]

/-- The grouped amounts per category. -/
def categoryAmounts (es : List Expense) : List (String × List ℚ) :=
  es.foldl (fun acc e => pushAmount acc e.category e.amount) []

/-- `Math.max(...amounts)` on a non-empty list (the route guards
`amounts.length > 0`; the `[]` value is never consulted). -/
def maxQ : List ℚ → ℚ
  | [] => 0
  | a :: rest => rest.foldl max a

/-- Per-category high-expense notice: `max > avg * 2` → info. -/
def highExpenseNotif (p : String × List ℚ) : List Notif :=
  if p.2.length > 0 then
    if maxQ p.2 > p.2.sum / (p.2.length : ℚ) * 2 then [⟨Sev.info, p.1⟩] else []
  else []

/-- The notifications array as pushed, before the final sort: budget
notifications first, then the high-expense notices. -/
def rawNotifications (bs : List Budget) (es : List Expense) : List Notif :=
  bs.flatMap budgetNotif ++ (categoryAmounts es).flatMap highExpenseNotif

/-- Insert into an already priority-descending list, before the first element
of not-larger priority — the placement a stable sort gives an element that
preceded the list's elements. -/
def insertByPriority (x : Notif) : List Notif → List Notif
  | [] => [x]
  | y :: ys => if priority y.type ≤ priority x.type then x :: y :: ys
               else y :: insertByPriority x ys

/-- `notifications.sort((a, b) => priority[b.type] - priority[a.type])` —
a stable sort, descending by priority (ECMAScript `Array.prototype.sort`
is stable). -/
def sortNotifications : List Notif → List Notif
  | [] => []
  | x :: xs => insertByPriority x (sortNotifications xs)

/-- `GET /api/dashboard/notifications`: generate, then sort by priority. -/
def dashboardNotifications (bs : List Budget) (es : List Expense) : List Notif :=
  sortNotifications (rawNotifications bs es)

/-- Budget-vs-actual insight per analytics row: the guarded variance
percentage, `> 20` → warning, `< -20` → alert. -/
def varianceInsight (r : ARow) : List Notif :=
  let vp : ℚ := if r.budget > 0 then (r.budget - r.actual) / r.budget * 100 else 0
  if vp > 20 then [⟨Sev.warning, r.category⟩]
  else if vp < -20 then [⟨Sev.alert, r.category⟩]
  else []

/-- `categorySpending[category] += amount` totals (insertion-ordered keys). -/
def categorySpendingTotals (es : List Expense) : List (String × ℚ) :=
  es.foldl (fun acc e =>
    if acc.any (fun p => p.1 == e.category) then
      acc.map (fun p => if p.1 == e.category then (p.1, p.2 + e.amount) else p)
    else acc ++ [(e.category, e.amount)]) []

/-- Concentration insight per category: `(amount / totalSpent) * 100 > 40` →
info (unguarded JavaScript division). -/
def concentrationInsight (total : ℚ) (p : String × ℚ) : List Notif :=
  if jsGt (jsMulPos (jsRatio p.2 total) 100) 40 then [⟨Sev.info, p.1⟩] else []

/-- The spending-pattern insights of the insights route. -/
def concentrationInsights (es : List Expense) : List Notif :=
  let cs := categorySpendingTotals es
  (cs.flatMap (concentrationInsight ((cs.map Prod.snd).sum)))

/-- The overall budget-utilization insight: guarded ratio over all budgets,
`> 80` → one warning. -/
def overallUtilizationInsight (bs : List Budget) : List Notif :=
  let totalBudget := (bs.map Budget.amount).sum
  let totalSpent := (bs.map Budget.spent).sum
  let bu : ℚ := if totalBudget > 0 then totalSpent / totalBudget * 100 else 0
  if bu > 80 then [⟨Sev.warning, "Overall"⟩] else []

/-- `GET /api/analytics/insights`: the insights array exactly as pushed —
variance insights, then concentration insights, then the overall-utilization
warning.  No sort is applied to it. -/
def generateInsights (rows : List ARow) (es : List Expense) (bs : List Budget) : List Notif :=
  rows.flatMap varianceInsight ++ concentrationInsights es ++ overallUtilizationInsight bs

/-- The severity ordering the spec asserts: each element's priority is at
least the next one's (warnings never after infos). -/
def sevSorted : List Sev → Bool
  | [] => true
  | [_] => true
  | a :: b :: rest => (priority b ≤ priority a : Bool) && sevSorted (b :: rest)

/-! ## Concrete fixtures -/

/-- Scenario B fixture: budgets `B1` (id 1, amount 500) and `B2` (id 2,
amount 300), both owned by user 0; no expenses yet. -/
def reassignStore0 : Store :=
  ⟨[budgetCreate 1 500 "Shopping" 0, budgetCreate 2 300 "Food" 0], [], 10⟩

/-- ... after `POST /api/expenses` `{amount: 100, budget: 1}` (expense id 10). -/
def reassignStore1 : Store :=
  (createExpense reassignStore0 0 ⟨100, "Food", 2024, 1, some 1⟩).2

/-- ... after `PUT /api/expenses/10` with body `{budget: 2}` (amount absent):
the budget reference moves from `B1` to `B2`. -/
def reassignStore2 : Store :=
  (updateExpense reassignStore1 0 10 ⟨none, some 2⟩).2

/-- Scenario A fixture: budget id 1, amount 1000, user 0. -/
def scenarioAStore0 : Store := ⟨[budgetCreate 1 1000 "Shopping" 0], [], 10⟩

/-- ... after `POST /api/expenses` `{amount: 150, budget: 1}`. -/
def scenarioAStore1 : Store :=
  (createExpense scenarioAStore0 0 ⟨150, "Food", 2024, 1, some 1⟩).2

/-- An expense of 100 in category Food this month (insights fixture). -/
def cexExpense : Expense := ⟨10, 100, "Food", 2024, 1, none, 0, true⟩

/-- A budget 90% used (insights fixture). -/
def cexBudget : Budget := { budgetCreate 1 100 "Shopping" 0 with spent := 90 }

/-- Delete fixture: user 7 owns budget 1 (amount 500) and an active expense
(id 3, amount 40) linked to it. -/
def deleteStore : Store :=
  ⟨[budgetCreate 1 500 "Food" 7], [⟨3, 40, "Food", 2024, 1, some 1, 7, true⟩], 9⟩

/-- The expense document of `deleteStore`. -/
def deleteExp : Expense := ⟨3, 40, "Food", 2024, 1, some 1, 7, true⟩

/-- Bulk fixture: user 0 owns only budget 1. -/
def bulkStore : Store := ⟨[budgetCreate 1 50 "Food" 0], [], 20⟩

/-! ## Theorems -/

/-- **C1** — refuted on the code; evidence of the code bug.  Run:
create `B1{amount:500}`, `B2{amount:300}`; create expense `{amount:100,
budget:B1}`; `PUT` the expense with body `{budget:B2}` (amount untouched).
The update succeeds, yet the handler adjusts budgets only when the amount
changed, so afterwards `B1.spent = 100` while the active expenses referencing
`B1` sum to `0`, and `B2.spent = 0` while the active expenses referencing `B2`
sum to `100`: `spent` is **not** the sum of active referencing expenses. -/
theorem conservation_violated_on_reassignment :
    spentOf reassignStore2 1 = some 100 ∧ activeSum reassignStore2 1 = 0 ∧
    spentOf reassignStore2 2 = some 0 ∧ activeSum reassignStore2 2 = 100 := by
  refine ⟨?_, ?_, ?_, ?_⟩ <;>
    simp [reassignStore2, reassignStore1, reassignStore0, spentOf, activeSum,
      updateExpense, createExpense, findBudget, findBudgetById, findActiveExpense,
      budgetIncSpent, updateExpenseDoc, addExpense, budgetCreate, mkExpense, List.find?]

/-- **C2** — refuted on the code; evidence of the code bug.  Scenario A,
first step: budget `{amount:1000}`, then `POST /api/expenses`
`{amount:150, budget:B}`.  The `$inc` runs through `findByIdAndUpdate`, which
skips the `pre('save')` hook, so `spent` becomes 150 but the stored
`remaining` stays 1000 instead of the claimed 850. -/
theorem remaining_stale_after_expense_create :
    spentOf scenarioAStore1 1 = some 150 ∧ remainingOf scenarioAStore1 1 = some 1000 ∧
    remainingOf scenarioAStore1 1 ≠ some (1000 - 150) := by
  refine ⟨?_, ?_, ?_⟩ <;>
    simp [scenarioAStore1, scenarioAStore0, spentOf, remainingOf, createExpense,
      findBudget, findBudgetById, budgetIncSpent, addExpense, budgetCreate,
      mkExpense, List.find?]
  norm_num

/-- **C3** — refuted on the code; evidence of the code bug.  Moving the
expense `{amount:100}` from `B1{amount:500}` to `B2{amount:300}` (body
`{budget:B2}`, amount unchanged) succeeds and moves the reference, but the
adjustment code is guarded by "amount changed", so `B1.spent` stays 100
(claim: decreases by 100 to 0) and `B2.spent` stays 0 (claim: increases by
100 to 100). -/
theorem reassignment_adjusts_no_budget :
    (updateExpense reassignStore1 0 10 ⟨none, some 2⟩).1 = 200 ∧
    (findActiveExpense reassignStore2 0 10).map Expense.budget = some (some 2) ∧
    spentOf reassignStore1 1 = some 100 ∧ spentOf reassignStore1 2 = some 0 ∧
    spentOf reassignStore2 1 = some 100 ∧ spentOf reassignStore2 2 = some 0 := by
  refine ⟨?_, ?_, ?_, ?_, ?_, ?_⟩ <;>
    simp [reassignStore2, reassignStore1, reassignStore0, spentOf,
      updateExpense, createExpense, findBudget, findBudgetById, findActiveExpense,
      budgetIncSpent, updateExpenseDoc, addExpense, budgetCreate, mkExpense, List.find?]

/-- **C8** — refuted on the code; evidence of the code bug.  Create a
`SavingsExpense` with `perMonth = 100` (the save hook stores
`perYear = 1200`), then `PUT /api/savings/expenses/:id` with body
`{perMonth: 200}`.  `findOneAndUpdate` bypasses the `pre('save')` hook, so
the stored `perYear` stays 1200 ≠ 200 × 12. -/
theorem perYear_stale_after_partial_update :
    (savingsExpenseUpdate (savingsExpenseCreate 1 0 100) (some 200)).perMonth = 200 ∧
    (savingsExpenseUpdate (savingsExpenseCreate 1 0 100) (some 200)).perYear = 1200 ∧
    (savingsExpenseUpdate (savingsExpenseCreate 1 0 100) (some 200)).perYear ≠
      (savingsExpenseUpdate (savingsExpenseCreate 1 0 100) (some 200)).perMonth * 12 := by
  refine ⟨?_, ?_, ?_⟩ <;>
    simp [savingsExpenseUpdate, savingsExpenseCreate]
  norm_num

/-- **C4** — confirmed.  `POST /api/expenses`: (i) when a budget ref is
supplied but no active budget with that id is owned by the requesting user,
the handler answers 400 and the store is returned untouched — no expense
document committed, no `spent` changed; (ii) when the budget ref is omitted,
the expense is created and the budgets collection is untouched. -/
theorem createExpense_error_handling (s : Store) (user : Nat) (i : ExpenseInput) :
    (∀ b, i.budget = some b → findBudget s user b = none →
      createExpense s user i = (400, s))
    ∧ (i.budget = none →
      createExpense s user i =
        (201, { s with expenses := s.expenses ++ [mkExpense s.nextId user i]
                       nextId := s.nextId + 1 })) := by
  constructor
  · intro b hb hnone
    simp [createExpense, hb, hnone]
  · intro hb
    simp [createExpense, hb, addExpense]

/-- Witness for `createExpense_error_handling`: a store with only budget 1
rejects an expense naming budget 99 and is left unchanged. -/
theorem createExpense_error_handling_witness :
    createExpense ⟨[budgetCreate 1 50 "Food" 0], [], 0⟩ 0 ⟨10, "Food", 2024, 1, some 99⟩
      = (400, ⟨[budgetCreate 1 50 "Food" 0], [], 0⟩) :=
  (createExpense_error_handling _ 0 _).1 99 rfl rfl

/-- **C5**, counterexample — the claim is false as stated: the per-budget
utilization of `GET /api/dashboard/notifications` is the unguarded
`(budget.spent / budget.amount) * 100`; at divisor `amount = 0` with
`spent = 100` it evaluates to `Infinity`, not `0`. -/
theorem dashUtilization_zero_divisor_not_zero :
    dashUtilization 100 0 = JsNum.inf ∧ dashUtilization 100 0 ≠ JsNum.num 0 := by
  have h : dashUtilization 100 0 = JsNum.inf := by
    norm_num [dashUtilization, jsRatio, jsMulPos]
  exact ⟨h, by simp [h]⟩

/-- **C5**, amended — the zero-divisor guard holds for the analytics
`variancePercentage` virtual, the budget `spendingPercentage` virtual and the
guarded analytics-summary ratio, but **not** for the dashboard-notifications
per-budget utilization, which evaluates to `NaN` when `spent = 0` and to
`±Infinity` otherwise. -/
theorem zero_guard_amended :
    (∀ r : ARow, r.budget = 0 → variancePercentage r = 0)
    ∧ (∀ b : Budget, b.amount = 0 → spendingPercentage b = 0)
    ∧ (∀ budget variance : ℚ, budget = 0 →
        summaryVariancePercentage budget variance = 0)
    ∧ (∀ spent : ℚ, dashUtilization spent 0 =
        if spent = 0 then JsNum.nan
        else if spent > 0 then JsNum.inf
        else JsNum.ninf) := by
  refine ⟨?_, ?_, ?_, ?_⟩
  · intro r h
    simp [variancePercentage, h]
  · intro b h
    simp [spendingPercentage, h]
  · intro budget variance h
    simp [summaryVariancePercentage, h]
  · intro spent
    rcases eq_or_ne spent 0 with h | h
    · simp [dashUtilization, jsRatio, jsMulPos, h]
    · rcases lt_or_gt_of_ne h with hlt | hgt
      · simp [dashUtilization, jsRatio, jsMulPos, h, hlt, not_lt_of_lt hlt]
      · simp [dashUtilization, jsRatio, jsMulPos, h, hgt]

/-- Witness for `zero_guard_amended` at concrete inputs. -/
theorem zero_guard_amended_witness :
    variancePercentage ⟨"Food", 50, 0, 0, 1, 2024⟩ = 0 ∧
    spendingPercentage ⟨1, 0, 5, 5, "Food", 0, true⟩ = 0 ∧
    summaryVariancePercentage 0 50 = 0 ∧
    dashUtilization 0 0 = JsNum.nan :=
  ⟨zero_guard_amended.1 _ rfl, zero_guard_amended.2.1 _ rfl,
   zero_guard_amended.2.2.1 0 50 rfl, by simpa using zero_guard_amended.2.2.2 0⟩

/-- Priorities never exceed the warning priority 2. -/
theorem priority_le_two (v : Sev) : priority v ≤ 2 := by
  cases v <;> simp [priority]

/-- Inserting a warning places it in front (2 is the maximal priority). -/
theorem insertByPriority_warning (x : Notif) (hx : x.type = Sev.warning)
    (l : List Notif) : insertByPriority x l = x :: l := by
  cases l with
  | nil => rfl
  | cons y ys =>
    have hle : priority y.type ≤ priority x.type := by
      rw [hx]
      exact priority_le_two y.type
    simp only [insertByPriority]
    rw [if_pos hle]

/-- Inserting an info into warnings-then-infos places it right after the
warnings and before the earlier-inserted infos' successors — i.e. it is
prepended to the info block. -/
theorem insertByPriority_info (x : Notif) (hx : x.type = Sev.info)
    (W I : List Notif) (hW : ∀ n ∈ W, n.type = Sev.warning)
    (hI : ∀ n ∈ I, n.type = Sev.info) :
    insertByPriority x (W ++ I) = W ++ x :: I := by
  induction W with
  | nil =>
    cases I with
    | nil => rfl
    | cons y ys =>
      have hy : y.type = Sev.info := hI y (by simp)
      simp [insertByPriority, hx, hy, priority]
  | cons w W ih =>
    have hw : w.type = Sev.warning := hW w (by simp)
    simp only [List.cons_append, insertByPriority, hx, hw, priority]
    rw [if_neg (by norm_num)]
    simp only [List.cons_append, List.cons.injEq, true_and]
    exact ih (fun n hn => hW n (by simp [hn]))

/-- On a list containing only warnings and infos, the stable
priority-descending sort is: the warnings in original order, then the infos
in original order. -/
theorem sortNotifications_partition (l : List Notif)
    (h : ∀ n ∈ l, n.type = Sev.warning ∨ n.type = Sev.info) :
    sortNotifications l =
      l.filter (fun n => n.type == Sev.warning)
        ++ l.filter (fun n => n.type != Sev.warning) := by
  induction l with
  | nil => rfl
  | cons x xs ih =>
    have hx := h x (by simp)
    have hxs : ∀ n ∈ xs, n.type = Sev.warning ∨ n.type = Sev.info :=
      fun n hn => h n (by simp [hn])
    rw [sortNotifications, ih hxs]
    rcases hx with hw | hi
    · rw [insertByPriority_warning x hw]
      simp [List.filter_cons, hw]
    · rw [insertByPriority_info x hi _ _
        (fun n hn => by
          have := List.mem_filter.1 hn
          simpa using this.2)
        (fun n hn => by
          have hmem := List.mem_filter.1 hn
          rcases hxs n hmem.1 with h1 | h1
          · exact absurd h1 (by simpa using hmem.2)
          · exact h1)]
      simp [List.filter_cons, hi]

/-- Per-budget notifications carry severity warning or info only. -/
theorem budgetNotif_types (b : Budget) (n : Notif) (hn : n ∈ budgetNotif b) :
    n.type = Sev.warning ∨ n.type = Sev.info := by
  simp only [budgetNotif] at hn
  split_ifs at hn <;> simp_all

/-- High-expense notices carry severity info. -/
theorem highExpenseNotif_type (p : String × List ℚ) (n : Notif)
    (hn : n ∈ highExpenseNotif p) : n.type = Sev.info := by
  simp only [highExpenseNotif] at hn
  split_ifs at hn <;> simp_all

/-- The dashboard notifications array contains only warnings and infos. -/
theorem rawNotifications_types (bs : List Budget) (es : List Expense)
    (n : Notif) (hn : n ∈ rawNotifications bs es) :
    n.type = Sev.warning ∨ n.type = Sev.info := by
  unfold rawNotifications at hn
  rcases List.mem_append.1 hn with h | h
  · rcases List.mem_flatMap.1 h with ⟨b, _, hb⟩
    exact budgetNotif_types b n hb
  · rcases List.mem_flatMap.1 h with ⟨p, _, hp⟩
    exact Or.inr (highExpenseNotif_type p n hp)

/-- **C6**, counterexample — the claim is false as stated: with no analytics
rows, one Food expense of 100 this month and one budget 90% used, the
insights endpoint emits the concentration info **before** the
overall-utilization warning (the insights array is never sorted), so a
warning follows an info. -/
theorem insights_not_severity_sorted :
    (generateInsights [] [cexExpense] [cexBudget]).map Notif.type
      = [Sev.info, Sev.warning] ∧
    sevSorted ((generateInsights [] [cexExpense] [cexBudget]).map Notif.type)
      = false := by
  have h : generateInsights [] [cexExpense] [cexBudget]
      = [⟨Sev.info, "Food"⟩, ⟨Sev.warning, "Overall"⟩] := by
    norm_num [generateInsights, concentrationInsights, categorySpendingTotals,
      concentrationInsight, overallUtilizationInsight, jsGt, jsMulPos, jsRatio,
      cexExpense, cexBudget, budgetCreate]
  exact ⟨by rw [h]; rfl, by rw [h]; rfl⟩

/-- **C6**, amended — the **dashboard notifications** output is sorted with
every warning before every info, preserving insertion order within each
severity (the array never holds another severity); the **analytics insights**
output, by contrast, is not sorted at all: it is exactly the concatenation of
the variance insights, the concentration insights, and the overall-utilization
warning, in emission order. -/
theorem severity_ordering_amended (bs : List Budget) (es : List Expense)
    (rows : List ARow) (ies : List Expense) (ibs : List Budget) :
    (dashboardNotifications bs es =
      (rawNotifications bs es).filter (fun n => n.type == Sev.warning)
        ++ (rawNotifications bs es).filter (fun n => n.type != Sev.warning))
    ∧ generateInsights rows ies ibs =
        rows.flatMap varianceInsight ++ concentrationInsights ies
          ++ overallUtilizationInsight ibs :=
  ⟨sortNotifications_partition _ (rawNotifications_types bs es), rfl⟩

/-- Lookup of the key just consed. -/
theorem lookup_cons_self {β : Type} (p : Nat × β) (m : Nat) (l : List (Nat × β))
    (h : p.1 = m) : (p :: l).lookup m = some p.2 := by
  rcases p with ⟨k, v⟩
  cases h
  simp [List.lookup_cons]

/-- Lookup skips a cons with another key. -/
theorem lookup_cons_other {β : Type} (p : Nat × β) (m : Nat) (l : List (Nat × β))
    (h : p.1 ≠ m) : (p :: l).lookup m = l.lookup m := by
  rcases p with ⟨k, v⟩
  have hb : (m == k) = false := by simp [Ne.symm h]
  simp [List.lookup_cons, hb]

/-- Keys of an association list survive a key-preserving map. -/
theorem map_fst_keyfix {β : Type} (f : Nat × β → Nat × β)
    (hf : ∀ p, (f p).1 = p.1) (l : List (Nat × β)) :
    (l.map f).map Prod.fst = l.map Prod.fst := by
  induction l with
  | nil => rfl
  | cons p ps ih => simp [hf, ih]

/-- A lookup survives a map that preserves keys and fixes every pair whose
key is the looked-up one. -/
theorem lookup_map_keyfix {β : Type} (f : Nat × β → Nat × β)
    (hf : ∀ p, (f p).1 = p.1) (m : Nat) (hm : ∀ p, p.1 = m → f p = p)
    (l : List (Nat × β)) : (l.map f).lookup m = l.lookup m := by
  induction l with
  | nil => rfl
  | cons p ps ih =>
    by_cases h : p.1 = m
    · rw [List.map_cons, hm p h, lookup_cons_self p m _ h, lookup_cons_self p m _ h]
    · rw [List.map_cons, lookup_cons_other (f p) m _ (by rw [hf]; exact h),
        lookup_cons_other p m _ h]
      exact ih

/-- `bumpMonth` updates values in place and never changes the key list. -/
theorem bumpMonth_keys (l : List (Nat × MonthBucket)) (m : Nat) (a : ℚ) :
    (bumpMonth l m a).map Prod.fst = l.map Prod.fst :=
  map_fst_keyfix _ (fun p => by by_cases h : p.1 == m <;> simp [h]) l

/-- `bumpMonth` at another key leaves a lookup unchanged. -/
theorem bumpMonth_lookup_ne (l : List (Nat × MonthBucket)) (m m' : Nat) (a : ℚ)
    (h : m' ≠ m) : (bumpMonth l m' a).lookup m = l.lookup m :=
  lookup_map_keyfix _ (fun p => by by_cases hp : p.1 == m' <;> simp [hp]) m
    (fun p hp => by simp [hp, Ne.symm h]) l

/-- The expense-summary fold never changes the key list. -/
theorem monthlyFold_keys (y : Nat) (es : List Expense)
    (acc : List (Nat × MonthBucket)) :
    ((es.foldl (fun acc e =>
        if e.year == y then bumpMonth acc e.month e.amount else acc) acc).map Prod.fst)
      = acc.map Prod.fst := by
  induction es generalizing acc with
  | nil => rfl
  | cons e es ih =>
    rw [List.foldl_cons]
    by_cases hy : e.year == y
    · rw [if_pos hy, ih, bumpMonth_keys]
    · rw [if_neg hy, ih]

/-- A month no current-year expense falls into keeps its accumulator value
through the expense-summary fold. -/
theorem monthlyFold_lookup (y m : Nat) (es : List Expense)
    (h : ∀ e ∈ es, e.year = y → e.month ≠ m) (acc : List (Nat × MonthBucket)) :
    ((es.foldl (fun acc e =>
        if e.year == y then bumpMonth acc e.month e.amount else acc) acc).lookup m)
      = acc.lookup m := by
  induction es generalizing acc with
  | nil => rfl
  | cons e es ih =>
    rw [List.foldl_cons]
    have htail : ∀ x ∈ es, x.year = y → x.month ≠ m :=
      fun x hx => h x (List.mem_cons_of_mem _ hx)
    by_cases hy : e.year == y
    · rw [if_pos hy, ih htail,
        bumpMonth_lookup_ne _ _ _ _ (h e (List.mem_cons_self _ _) (by simpa using hy))]
    · rw [if_neg hy, ih htail]

/-- Zero-initialisation lookups of the expense-summary breakdown. -/
theorem initMonthlyBreakdown_lookup (m : Nat) (h1 : 1 ≤ m) (h2 : m ≤ 12) :
    initMonthlyBreakdown.lookup m = some ⟨0, 0⟩ := by
  interval_cases m <;> rfl

/-- `bumpAnalyticsMonth` never changes the key list. -/
theorem bumpAnalyticsMonth_keys (l : List (Nat × ABucket)) (r : ARow) :
    (bumpAnalyticsMonth l r).map Prod.fst = l.map Prod.fst :=
  map_fst_keyfix _ (fun p => by by_cases h : p.1 == r.month <;> simp [h]) l

/-- `bumpAnalyticsMonth` of a row of another month leaves a lookup unchanged. -/
theorem bumpAnalyticsMonth_lookup_ne (l : List (Nat × ABucket)) (r : ARow)
    (m : Nat) (h : r.month ≠ m) :
    (bumpAnalyticsMonth l r).lookup m = l.lookup m :=
  lookup_map_keyfix _ (fun p => by by_cases hp : p.1 == r.month <;> simp [hp]) m
    (fun p hp => by simp [hp, Ne.symm h]) l

/-- The analytics fold never changes the key list. -/
theorem analyticsFold_keys (rows : List ARow) (acc : List (Nat × ABucket)) :
    ((rows.foldl bumpAnalyticsMonth acc).map Prod.fst) = acc.map Prod.fst := by
  induction rows generalizing acc with
  | nil => rfl
  | cons r rows ih =>
    rw [List.foldl_cons, ih, bumpAnalyticsMonth_keys]

/-- A month no analytics row falls into keeps its accumulator value. -/
theorem analyticsFold_lookup (m : Nat) (rows : List ARow)
    (h : ∀ r ∈ rows, r.month ≠ m) (acc : List (Nat × ABucket)) :
    ((rows.foldl bumpAnalyticsMonth acc).lookup m) = acc.lookup m := by
  induction rows generalizing acc with
  | nil => rfl
  | cons r rows ih =>
    rw [List.foldl_cons, ih (fun x hx => h x (List.mem_cons_of_mem _ hx)),
      bumpAnalyticsMonth_lookup_ne _ _ _ (h r (List.mem_cons_self _ _))]

/-- Zero-initialisation lookups of the analytics breakdown. -/
theorem initAnalyticsMonthly_lookup (m : Nat) (h1 : 1 ≤ m) (h2 : m ≤ 12) :
    initAnalyticsMonthly.lookup m = some ⟨0, 0, 0, 0⟩ := by
  interval_cases m <;> rfl

/-- Lookup through a key-preserving value map. -/
theorem lookup_map_value (g : ABucket → ABucket) (l : List (Nat × ABucket))
    (m : Nat) :
    ((l.map (fun p => (p.1, g p.2))).lookup m) = (l.lookup m).map g := by
  induction l with
  | nil => rfl
  | cons p ps ih =>
    by_cases h : p.1 = m
    · rw [List.map_cons, lookup_cons_self (p.1, g p.2) m _ h, lookup_cons_self p m _ h]
      rfl
    · rw [List.map_cons, lookup_cons_other (p.1, g p.2) m _ h,
        lookup_cons_other p m _ h, ih]

/-- **C7** — confirmed.  Both monthly breakdowns — the expense summary's and
the analytics summary's — contain exactly the keys 1..12 in order, for every
input collection (including the empty one), and a month no data falls into
keeps its zero-initialised bucket. -/
theorem monthly_breakdown_dense (y : Nat) (es : List Expense) (rows : List ARow) :
    ((monthlyBreakdown y es).map Prod.fst = (List.range 12).map (fun i => i + 1))
    ∧ (∀ m, 1 ≤ m → m ≤ 12 → (∀ e ∈ es, e.year = y → e.month ≠ m) →
        (monthlyBreakdown y es).lookup m = some ⟨0, 0⟩)
    ∧ ((analyticsMonthlyBreakdown rows).map Prod.fst
        = (List.range 12).map (fun i => i + 1))
    ∧ (∀ m, 1 ≤ m → m ≤ 12 → (∀ r ∈ rows, r.month ≠ m) →
        (analyticsMonthlyBreakdown rows).lookup m = some ⟨0, 0, 0, 0⟩) := by
  refine ⟨?_, ?_, ?_, ?_⟩
  · rw [monthlyBreakdown, monthlyFold_keys, initMonthlyBreakdown, List.map_map]
    rfl
  · intro m h1 h2 hm
    rw [monthlyBreakdown, monthlyFold_lookup y m es hm,
      initMonthlyBreakdown_lookup m h1 h2]
  · rw [analyticsMonthlyBreakdown, List.map_map]
    have hcomp : (Prod.fst ∘ fun p : Nat × ABucket =>
        (p.1, { p.2 with variance := p.2.budget - p.2.actual })) = Prod.fst := rfl
    rw [hcomp, analyticsFold_keys, initAnalyticsMonthly, List.map_map]
    rfl
  · intro m h1 h2 hm
    rw [analyticsMonthlyBreakdown,
      lookup_map_value (fun b => { b with variance := b.budget - b.actual }),
      analyticsFold_lookup m rows hm, initAnalyticsMonthly_lookup m h1 h2]
    simp

/-- Witness for `monthly_breakdown_dense`: with no data at all, month 5 of
both breakdowns is present and zero-initialised. -/
theorem monthly_breakdown_dense_witness :
    (monthlyBreakdown 2025 []).lookup 5 = some ⟨0, 0⟩ ∧
    (analyticsMonthlyBreakdown []).lookup 5 = some ⟨0, 0, 0, 0⟩ :=
  ⟨(monthly_breakdown_dense 2025 [] []).2.1 5 (by norm_num) (by norm_num)
      (by simp),
   (monthly_breakdown_dense 2025 [] []).2.2.2 5 (by norm_num) (by norm_num)
      (by simp)⟩

/-- Creating an expense document does not change the budgets collection, so
the per-item budget check is unaffected. -/
theorem itemOk_addExpense (s : Store) (u user : Nat) (i j : ExpenseInput) :
    itemOk (addExpense s u i) user j = itemOk s user j := rfl

/-- Unfolding one step of the committed-prefix fold. -/
theorem addExpenses_cons (s : Store) (u : Nat) (i : ExpenseInput)
    (es : List ExpenseInput) :
    addExpenses s u (i :: es) = addExpenses (addExpense s u i) u es := rfl

/-- The committed prefix touches only the expense collection. -/
theorem addExpenses_budgets (s : Store) (u : Nat) (es : List ExpenseInput) :
    (addExpenses s u es).budgets = s.budgets := by
  induction es generalizing s with
  | nil => rfl
  | cons i es ih =>
    rw [addExpenses_cons, ih]
    rfl

/-- The bulk loop on a valid prefix followed by an item with an invalid
budget ref: it commits exactly the prefix and stops with the error return. -/
theorem bulkLoop_partial (user : Nat) (post : List ExpenseInput)
    (bad : ExpenseInput) (pre : List ExpenseInput) :
    ∀ (s : Store) (bu : List (Nat × ℚ)),
      (∀ i ∈ pre, itemOk s user i = true) → itemOk s user bad = false →
      bulkLoop user s bu (pre ++ bad :: post)
        = Except.error (addExpenses s user pre) := by
  induction pre with
  | nil =>
    intro s bu _ hbad
    rcases hb : bad.budget with _ | b
    · rw [itemOk, hb] at hbad
      simp at hbad
    · rw [itemOk, hb] at hbad
      have hbad2 : (findBudget s user b).isSome = false := hbad
      simp only [List.nil_append, bulkLoop, hb]
      rw [if_neg (by simp [hbad2])]
      rfl
  | cons i pre ih =>
    intro s bu hpre hbad
    have hi : itemOk s user i = true := hpre i (List.mem_cons_self _ _)
    have hpre' : ∀ j ∈ pre, itemOk (addExpense s user i) user j = true :=
      fun j hj => by rw [itemOk_addExpense]; exact hpre j (List.mem_cons_of_mem _ hj)
    have hbad' : itemOk (addExpense s user i) user bad = false := by
      rw [itemOk_addExpense]; exact hbad
    rcases hb : i.budget with _ | b
    · simp only [List.cons_append, bulkLoop, hb]
      rw [addExpenses_cons]
      exact ih (addExpense s user i) bu hpre' hbad'
    · rw [itemOk, hb] at hi
      have hi2 : (findBudget s user b).isSome = true := hi
      simp only [List.cons_append, bulkLoop, hb]
      rw [if_pos hi2, addExpenses_cons]
      exact ih (addExpense s user i) (buAdd bu b i.amount) hpre' hbad'

/-- **C9** — confirmed.  `POST /api/expenses/bulk` on a list whose prefix is
valid and whose next item names an invalid budget: the request answers 400,
the store keeps exactly the expenses created for the prefix (they stay
committed — there is no rollback), and no budget's `spent` changes, because
all budget `$inc`s are deferred until after the whole loop and the loop
returned early. -/
theorem bulk_invalid_budget_partial_commit (user : Nat) (s : Store)
    (pre post : List ExpenseInput) (bad : ExpenseInput)
    (hpre : ∀ i ∈ pre, itemOk s user i = true)
    (hbad : itemOk s user bad = false) :
    bulkCreateExpenses user s (pre ++ bad :: post) = (400, addExpenses s user pre)
    ∧ (bulkCreateExpenses user s (pre ++ bad :: post)).2.budgets = s.budgets := by
  have h := bulkLoop_partial user post bad pre s [] hpre hbad
  constructor
  · rw [bulkCreateExpenses, h]
  · rw [bulkCreateExpenses, h]
    exact addExpenses_budgets s user pre

/-- Witness for `bulk_invalid_budget_partial_commit`: in a store owning only
budget 1, a bulk request of one unlinked expense followed by one naming the
non-existent budget 99 answers 400, keeps the first expense, and leaves all
budgets untouched. -/
theorem bulk_invalid_budget_partial_commit_witness :
    bulkCreateExpenses 0 bulkStore
        [⟨10, "Food", 2024, 1, none⟩, ⟨20, "Food", 2024, 1, some 99⟩]
      = (400, addExpenses bulkStore 0 [⟨10, "Food", 2024, 1, none⟩])
    ∧ (bulkCreateExpenses 0 bulkStore
        [⟨10, "Food", 2024, 1, none⟩, ⟨20, "Food", 2024, 1, some 99⟩]).2.budgets
      = bulkStore.budgets :=
  bulk_invalid_budget_partial_commit 0 bulkStore [⟨10, "Food", 2024, 1, none⟩] []
    ⟨20, "Food", 2024, 1, some 99⟩
    (by intro i hi; simp at hi; subst hi; rfl) rfl

/-- After soft-deleting an expense id, no lookup for an active expense with
that id can succeed — every document with that id is now inactive. -/
theorem findActiveExpense_deactivate (s : Store) (user eid : Nat) :
    findActiveExpense (deactivateExpense s eid) user eid = none := by
  rw [findActiveExpense]
  apply List.find?_eq_none.2
  intro x hx
  rcases List.mem_map.1 hx with ⟨y, _, rfl⟩
  by_cases h : y.id == eid <;> simp [h]

/-- List form: a pointwise `$inc` map commutes with `find?` by id. -/
theorem find_inc_list (l : List Budget) (b : Nat) (d : ℚ) :
    ((l.map (fun x => if x.id == b then { x with spent := x.spent + d } else x)).find?
        (fun x => x.id == b))
      = (l.find? (fun x => x.id == b)).map (fun x => { x with spent := x.spent + d }) := by
  induction l with
  | nil => rfl
  | cons x xs ih =>
    by_cases h : (x.id == b) = true
    · rw [List.map_cons, if_pos h,
        List.find?_cons_of_pos (p := fun y : Budget => y.id == b) _
          (show (({ x with spent := x.spent + d } : Budget).id == b) = true from h),
        List.find?_cons_of_pos (p := fun y : Budget => y.id == b) _ h]
      rfl
    · rw [List.map_cons, if_neg h,
        List.find?_cons_of_neg (p := fun y : Budget => y.id == b) _ h,
        List.find?_cons_of_neg (p := fun y : Budget => y.id == b) _ h, ih]

/-- A `$inc` on `spent` transforms the looked-up budget document pointwise. -/
theorem findBudgetById_incSpent (s : Store) (b : Nat) (d : ℚ) :
    findBudgetById (budgetIncSpent s b d)
        b = (findBudgetById s b).map (fun x => { x with spent := x.spent + d }) :=
  find_inc_list s.budgets b d

/-- **C10** — confirmed.  When an active expense is found, the first
`DELETE /api/expenses/:id` answers 200, `$inc`s the linked budget (if any) by
`-amount` exactly once, and soft-deletes the document; a repeated delete of
the same id finds no active expense, answers 404, and changes nothing —
so the linked budget is decremented exactly once. -/
theorem delete_twice_decrements_once (s : Store) (user eid : Nat) (e : Expense)
    (he : findActiveExpense s user eid = some e) :
    (deleteExpense s user eid).1 = 200
    ∧ deleteExpense (deleteExpense s user eid).2 user eid
        = (404, (deleteExpense s user eid).2)
    ∧ (∀ b bud, e.budget = some b → findBudgetById s b = some bud →
        findBudgetById (deleteExpense s user eid).2 b
          = some { bud with spent := bud.spent - e.amount })
    ∧ (e.budget = none → (deleteExpense s user eid).2.budgets = s.budgets) := by
  have hid : e.id = eid := by
    have hp := List.find?_some (by simpa [findActiveExpense] using he)
    simp at hp
    exact hp.1.1
  have hd1 : deleteExpense s user eid =
      (200, deactivateExpense
        (match e.budget with
         | some b => budgetIncSpent s b (-e.amount)
         | none => s) e.id) := by
    rw [deleteExpense, he]
  refine ⟨?_, ?_, ?_, ?_⟩
  · rw [hd1]
  · rw [hd1]
    rw [deleteExpense]
    rw [hid, findActiveExpense_deactivate]
  · intro b bud hb hbud
    rw [hd1, hb]
    have : findBudgetById
        (deactivateExpense (budgetIncSpent s b (-e.amount)) e.id) b
        = findBudgetById (budgetIncSpent s b (-e.amount)) b := rfl
    rw [this, findBudgetById_incSpent, hbud]
    simp [sub_eq_add_neg]
  · intro hb
    rw [hd1, hb]
    rfl

/-- Witness for `delete_twice_decrements_once`: deleting expense 3 of
`deleteStore` twice — 200 then 404, with the second call a no-op, and
budget 1 decremented by the expense amount exactly once. -/
theorem delete_twice_decrements_once_witness :
    (deleteExpense deleteStore 7 3).1 = 200
    ∧ deleteExpense (deleteExpense deleteStore 7 3).2 7 3
        = (404, (deleteExpense deleteStore 7 3).2)
    ∧ findBudgetById (deleteExpense deleteStore 7 3).2 1
        = some { budgetCreate 1 500 "Food" 7 with spent := (0 : ℚ) - 40 } :=
  ⟨(delete_twice_decrements_once deleteStore 7 3 deleteExp rfl).1,
   (delete_twice_decrements_once deleteStore 7 3 deleteExp rfl).2.1,
   (delete_twice_decrements_once deleteStore 7 3 deleteExp rfl).2.2.1 1
     (budgetCreate 1 500 "Food" 7) rfl rfl⟩
